import Mathlib

/-!
Shallow embedding of `src/directline_client.py`.

The Python module talks to a Direct Line style HTTP API.  Here every
network interaction is made explicit: each client method is a pure
function of its arguments, the client configuration, and the outcome of
the single HTTP request it performs (`HttpResult`).  A method returns the
list of outbound requests it issued (`Request`) together with a `PyResult`
that records whether the Python call returned a value or raised an
uncaught exception.

JSON response bodies are modelled by the inductive type `Json`; Python
`dict.get` becomes `pyGet` / `pyGetD`, which raise `AttributeError` on a
non-dict receiver exactly as Python does; iteration becomes `pyIter`,
which raises `TypeError` on a non-iterable value; and Python truthiness
of a JSON value becomes `Json.truthy`.  An `AttributeError`/`TypeError`
raised inside `_extract_markdown_content` is not a
`requests.exceptions.RequestException`, so it escapes `get_response`'s
except clause; the model propagates it as a `PyResult.raised`.
`requests.Response.raise_for_status` raises
exactly for status codes in [400, 600), which `raiseForStatus` mirrors.
A decode failure of `response.json()` as well as connection errors and
timeouts are instances of `requests.exceptions.RequestException` and are
represented by the `HttpResult.netErr` constructor; saved bodies are
therefore already-decoded `Json` values.

The definitions keep the Python names (`get_token`, `start_conversation`,
`send_message`, `send_user_token`, `get_response`,
`_extract_markdown_content` written as `extract_markdown_content`,
`query_directline`).
-/

namespace DirectLine

/-- JSON values, as produced by `response.json()`. Objects keep field
order; Python dict keys are unique so `lookup` returns the stored value. -/
inductive Json where
  | null
  | bool (b : Bool)
  | num (n : Int)
  | str (s : String)
  | arr (elems : List Json)
  | obj (fields : List (String × Json))

/-- Python truthiness of a JSON value (`None`, `False`, `0`, `""`, `[]`,
`{}` are falsy, everything else truthy). -/
def Json.truthy : Json → Bool
  | .null => false
  | .bool b => b
  | .num n => n != 0
  | .str s => s != ""
  | .arr xs => !xs.isEmpty
  | .obj fs => !fs.isEmpty

/-- Python `x == s` for an optional JSON value against a string literal:
true exactly when the value is that string. -/
def isStrVal (o : Option Json) (s : String) : Bool :=
  match o with
  | some (.str t) => t == s
  | _ => false

/-- Default `endpoint` field of `DirectLineConfig` (line 12 of the
source). -/
def defaultEndpoint : String := "https://directline.botframework.com/v3/directline"

/-- Default `token_url` field.  In the Python dataclass the f-string
`f"{endpoint}/tokens/generate"` is evaluated once, at class-definition
time, against the class-level default `endpoint`; it is a constant, not a
function of the instance's endpoint. -/
def defaultTokenUrl : String := defaultEndpoint ++ "/tokens/generate"

/-- `DirectLineConfig` dataclass (lines 9-16). -/
structure DirectLineConfig where
  endpoint : String := defaultEndpoint
  token_url : String := defaultTokenUrl
  timeout : Nat := 120
  retry_attempts : Nat := 3
  retry_delay : Nat := 5

/-- `DirectLineConfig(endpoint=e)`: only the endpoint is overridden, every
other field (in particular `token_url`) keeps its default. -/
def configWithEndpoint (e : String) : DirectLineConfig :=
  { endpoint := e }

/-- Module-level `DL_CONFIG = DirectLineConfig()` (line 138); also the
config every `DirectLineClient.__init__` builds (line 23). -/
def DL_CONFIG : DirectLineConfig := {}

/-- Replace only the retry fields of a configuration (used to state that
no call ever consults them). -/
def setRetry (cfg : DirectLineConfig) (ra rd : Nat) : DirectLineConfig :=
  { cfg with retry_attempts := ra, retry_delay := rd }

/-- Outcome of a Python call: a returned value, or an uncaught exception
propagating to the caller. -/
inductive PyResult (α : Type) where
  | ret (a : α)
  | raised (e : String)

/-- Whether a Python call returned normally (did not raise). -/
def PyResult.isRet : PyResult α → Bool
  | .ret _ => true
  | .raised _ => false

/-- Python `j.get(k)`: only dicts have a `get` attribute, so a non-object
receiver raises `AttributeError`; on a dict the result is the stored
value, or `None` when the key is absent. -/
def pyGet (j : Json) (k : String) : PyResult (Option Json) :=
  match j with
  | .obj fs => .ret (fs.lookup k)
  | _ => .raised "AttributeError: get"

/-- Python `j.get(k, default)`: `AttributeError` on a non-object
receiver, otherwise the stored value or the default. -/
def pyGetD (j : Json) (k : String) (d : Json) : PyResult Json :=
  match j with
  | .obj fs => .ret ((fs.lookup k).getD d)
  | _ => .raised "AttributeError: get"

/-- Python `for x in j`: a list iterates its elements, a string its
one-character substrings, a dict its keys; `None`, booleans and numbers
raise `TypeError`. -/
def pyIter : Json → PyResult (List Json)
  | .arr xs => .ret xs
  | .str s => .ret (s.data.map (fun c => .str c.toString))
  | .obj fs => .ret (fs.map (fun p => .str p.1))
  | _ => .raised "TypeError: not iterable"

/-- The content an extraction call returned, when it returned at all
(`none` both for a returned `None` and for a raised exception). -/
def returnedContent (p : PyResult (Option Json)) : Option Json :=
  match p with
  | .ret o => o
  | .raised _ => none

/-- Outcome of one HTTP request: a response with a status code, raw text
and decoded JSON body, or a `requests.exceptions.RequestException`
(connection error, timeout, JSON decode failure). -/
inductive HttpResult where
  | ok (status : Nat) (text : String) (body : Json)
  | netErr (msg : String)

/-- An outbound HTTP request as the client builds it. -/
structure Request where
  method : String
  url : String
  headers : List (String × String)
  body : Option Json

/-- The Authorization header of a request. -/
def Request.authHeader (r : Request) : Option String :=
  r.headers.lookup "Authorization"

/-- `requests.Response.raise_for_status` raises `HTTPError` exactly for
status codes in [400, 600); 1xx-3xx statuses do not raise. -/
def raiseForStatus (status : Nat) : Bool :=
  decide (400 ≤ status) && decide (status < 600)

/-- `DirectLineClient._make_headers` (lines 31-37):
`auth_token = token or f"Bearer {secret}"` (a `None` or empty token falls
back to `"Bearer " + secret`), then the header value is
`f"Bearer {auth_token}"`. -/
def make_headers (secret : String) (token : Option String) : List (String × String) :=
  let auth_token :=
    match token with
    | some t => if t = "" then "Bearer " ++ secret else t
    | none => "Bearer " ++ secret
  [("Authorization", "Bearer " ++ auth_token), ("Content-Type", "application/json")]

/-- `DirectLineClient._validate_credentials` (lines 26-29): raises
`ValueError` when the secret or the bot id is falsy (empty). -/
def validate_credentials (secret bot_id : String) : PyResult Unit :=
  if secret = "" ∨ bot_id = "" then
    .raised "ValueError: Direct Line secret and bot ID are required"
  else .ret ()

/-- The state of a constructed `DirectLineClient`. -/
structure DirectLineClient where
  secret : String
  bot_id : String
  config : DirectLineConfig

/-- `DirectLineClient.__init__` (lines 20-24): stores the credentials,
builds a default `DirectLineConfig`, validates.  The second component is
the list of HTTP requests issued during construction: the constructor
performs none. -/
def DirectLineClient.init (secret bot_id : String) :
    PyResult DirectLineClient × List Request :=
  (match validate_credentials secret bot_id with
   | .ret _ => .ret { secret := secret, bot_id := bot_id, config := {} }
   | .raised e => .raised e,
   [])

/-- `DirectLineClient.get_token` (lines 39-51): POST to
`config.token_url` authenticated with the secret; on a
`RequestException` (network error, timeout, 4xx/5xx via
`raise_for_status`) returns `None`; otherwise evaluates
`response.json()["token"]`, whose `KeyError`/`TypeError` is NOT caught. -/
def get_token (secret : String) (cfg : DirectLineConfig) (r : HttpResult) :
    List Request × PyResult (Option Json) :=
  let req : Request :=
    { method := "POST", url := cfg.token_url,
      headers := make_headers secret (some secret), body := none }
  ([req],
   match r with
   | .netErr _ => .ret none
   | .ok status _ body =>
     if raiseForStatus status then .ret none
     else
       match body with
       | .obj fs =>
         match fs.lookup "token" with
         | some v => .ret (some v)
         | none => .raised "KeyError: token"
       | _ => .raised "TypeError")

/-- `DirectLineClient.start_conversation` (lines 53-67). -/
def start_conversation (secret bot_id token : String) (cfg : DirectLineConfig)
    (r : HttpResult) : List Request × PyResult (Option Json) :=
  let payload : Json := .obj [("bot", .obj [("id", .str bot_id)])]
  let req : Request :=
    { method := "POST", url := cfg.endpoint ++ "/conversations",
      headers := make_headers secret (some token), body := some payload }
  ([req],
   match r with
   | .netErr _ => .ret none
   | .ok status _ body =>
     if raiseForStatus status then .ret none
     else
       match body with
       | .obj fs =>
         match fs.lookup "conversationId" with
         | some v => .ret (some v)
         | none => .raised "KeyError: conversationId"
       | _ => .raised "TypeError")

/-- `DirectLineClient.send_message` (lines 69-88): posts a message
activity; `True` on success, `False` on any caught `RequestException`. -/
def send_message (secret conversation_id message token : String)
    (cfg : DirectLineConfig) (r : HttpResult) : List Request × PyResult Bool :=
  let payload : Json :=
    .obj [("type", .str "message"), ("from", .obj [("id", .str "user123")]),
          ("text", .str message), ("locale", .str "en-US")]
  let req : Request :=
    { method := "POST",
      url := cfg.endpoint ++ "/conversations/" ++ conversation_id ++ "/activities",
      headers := make_headers secret (some token), body := some payload }
  ([req],
   match r with
   | .netErr _ => .ret false
   | .ok status _ _ => if raiseForStatus status then .ret false else .ret true)

/-- `DirectLineClient.send_user_token` (lines 90-109): posts a
`tokens/response` event activity carrying the user credential. -/
def send_user_token (secret conversation_id user_token token : String)
    (cfg : DirectLineConfig) (r : HttpResult) : List Request × PyResult Bool :=
  let payload : Json :=
    .obj [("type", .str "event"), ("name", .str "tokens/response"),
          ("value", .obj [("token", .str user_token)]),
          ("from", .obj [("id", .str "user123")])]
  let req : Request :=
    { method := "POST",
      url := cfg.endpoint ++ "/conversations/" ++ conversation_id ++ "/activities",
      headers := make_headers secret (some token), body := some payload }
  ([req],
   match r with
   | .netErr _ => .ret false
   | .ok status _ _ => if raiseForStatus status then .ret false else .ret true)

/-- The loop body of `_extract_markdown_content` for one activity
(lines 129-135): the content this activity yields, if any.  A non-dict
activity raises `AttributeError` at `activity.get("type")`; for a
matching activity the chained
`activity.get("value", {}).get("observation", {})` and the following
`.get` calls raise `AttributeError` whenever the receiver is not a dict.
The walrus test `if markdown_content := text.get("MarkdownContent")`
accepts the value only when it is truthy (in particular a
present-but-empty string yields nothing). -/
def activityMarkdown (activity : Json) : PyResult (Option Json) :=
  match activity with
  | .obj fs =>
    if isStrVal (fs.lookup "type") "event" &&
       isStrVal (fs.lookup "valueType") "DynamicPlanStepFinished" then
      match pyGetD ((fs.lookup "value").getD (.obj [])) "observation" (.obj []) with
      | .raised e => .raised e
      | .ret observation =>
        match pyGetD observation "search_result" (.obj []) with
        | .raised e => .raised e
        | .ret search_result =>
          match pyGetD search_result "Text" (.obj []) with
          | .raised e => .raised e
          | .ret text =>
            match pyGet text "MarkdownContent" with
            | .raised e => .raised e
            | .ret (some v) => .ret (if v.truthy then some v else none)
            | .ret none => .ret none
    else .ret none
  | _ => .raised "AttributeError: get"

/-- The `for activity in ...` loop of `_extract_markdown_content` with
its early `return`: first activity yielding content wins, `None` after
the loop, and an exception raised by the body propagates. -/
def extractLoop : List Json → PyResult (Option Json)
  | [] => .ret none
  | activity :: rest =>
    match activityMarkdown activity with
    | .raised e => .raised e
    | .ret (some v) => .ret (some v)
    | .ret none => extractLoop rest

/-- `DirectLineClient._extract_markdown_content` (lines 125-136):
`data.get("activities", [])` raises `AttributeError` on a non-dict body,
the `for` loop raises `TypeError` on a non-iterable activities value,
then the loop scans as above. -/
def extract_markdown_content (data : Json) : PyResult (Option Json) :=
  match data with
  | .obj fs =>
    match pyIter ((fs.lookup "activities").getD (.arr [])) with
    | .raised e => .raised e
    | .ret items => extractLoop items
  | _ => .raised "AttributeError: get"

/-- `DirectLineClient.get_response` (lines 111-123): GET the activities,
extract; any `RequestException` is caught and yields `None`, but an
`AttributeError`/`TypeError` raised inside the extraction is not a
`RequestException` and propagates. -/
def get_response (secret conversation_id token : String) (cfg : DirectLineConfig)
    (r : HttpResult) : List Request × PyResult (Option Json) :=
  let req : Request :=
    { method := "GET",
      url := cfg.endpoint ++ "/conversations/" ++ conversation_id ++ "/activities",
      headers := make_headers secret (some token), body := none }
  ([req],
   match r with
   | .netErr _ => .ret none
   | .ok status _ body =>
     if raiseForStatus status then .ret none
     else extract_markdown_content body)

/-- Truthiness of `os.getenv` results: `None` and `""` are falsy. -/
def optFalsy : Option String → Bool
  | none => true
  | some s => s == ""

/-- `query_directline` (lines 140-223).  Arguments: the tool inputs, the
`USER_TOKEN` / `DIRECT_LINE_SECRET` / `BotIdentifier` environment values,
and the outcomes of its three HTTP interactions (first message post,
token event post, the GET inside `get_response`).  The two
`requests.post` calls are NOT wrapped in try/except, so a transport
exception propagates; a non-200 status on the first post returns an
error string; the second post's status is only printed; then a fresh
`DirectLineClient` is built from the environment (raising `ValueError`
on missing credentials) and `get_response` supplies the return value,
which may be `None`. -/
def query_directline (conversation_id message token : String)
    (user_token env_secret env_bot : Option String)
    (r1 r2 r3 : HttpResult) : PyResult (Option Json) :=
  match r1 with
  | .netErr e => .raised e
  | .ok s1 text1 _ =>
    if s1 = 200 then
      match r2 with
      | .netErr e => .raised e
      | .ok _ _ _ =>
        if optFalsy env_secret || optFalsy env_bot then
          .raised "ValueError: Direct Line secret and bot ID are required"
        else
          (get_response (env_secret.getD "") conversation_id token DL_CONFIG r3).2
    else .ret (some (.str ("Error: " ++ toString s1 ++ " - " ++ text1)))

end DirectLine

namespace DirectLine

/-! ## Concrete payloads used by the extraction claims -/

/-- A matching activity whose nested markdown content is `"hello"`. -/
def helloActivity : Json :=
  .obj [("type", .str "event"), ("valueType", .str "DynamicPlanStepFinished"),
        ("value", .obj [("observation",
          .obj [("search_result",
            .obj [("Text", .obj [("MarkdownContent", .str "hello")])])])])]

/-- A matching activity whose nested markdown content is present but empty. -/
def emptyContentActivity : Json :=
  .obj [("type", .str "event"), ("valueType", .str "DynamicPlanStepFinished"),
        ("value", .obj [("observation",
          .obj [("search_result",
            .obj [("Text", .obj [("MarkdownContent", .str "")])])])])]

/-- An ordinary message activity, not matching the event filter. -/
def plainMessageActivity : Json :=
  .obj [("type", .str "message"), ("text", .str "hi")]

/-- Payload with a single matching activity carrying `"hello"`. -/
def helloPayload : Json := .obj [("activities", .arr [helloActivity])]

/-- Payload with no matching activity. -/
def noMatchPayload : Json := .obj [("activities", .arr [plainMessageActivity])]

/-- Payload whose first matching activity has empty content and whose
second carries `"hello"`. -/
def emptyThenHelloPayload : Json :=
  .obj [("activities", .arr [emptyContentActivity, helloActivity])]

/-- A matching event activity whose `value` is a plain string: Python
raises `AttributeError` at `.get("observation", {})` on it. -/
def oopsActivity : Json :=
  .obj [("type", .str "event"), ("valueType", .str "DynamicPlanStepFinished"),
        ("value", .str "oops")]

/-- An object-shaped payload whose only activity is the malformed
matching activity. -/
def oopsPayload : Json := .obj [("activities", .arr [oopsActivity])]

/-! ## Helper lemmas -/

/-- Any content an activity yields passed the walrus truthiness test. -/
theorem activityMarkdown_truthy (a : Json) :
    (returnedContent (activityMarkdown a)).all Json.truthy = true := by
  unfold activityMarkdown
  repeat' split
  all_goals simp_all [returnedContent, Option.all]

/-- The extraction loop only returns truthy values (when it returns). -/
theorem extractLoop_truthy (l : List Json) :
    (returnedContent (extractLoop l)).all Json.truthy = true := by
  induction l with
  | nil => rfl
  | cons a rest ih =>
    have ha := activityMarkdown_truthy a
    cases h : activityMarkdown a with
    | raised e => simp [extractLoop, h, returnedContent]
    | ret o =>
      cases o with
      | none => simpa [extractLoop, h] using ih
      | some v =>
        rw [h] at ha
        simpa [extractLoop, h, returnedContent] using ha

/-- `raise_for_status` raises on each 4xx/5xx status. -/
theorem raiseForStatus_true (s : Nat) (h1 : 400 ≤ s) (h2 : s < 600) :
    raiseForStatus s = true := by
  simp [raiseForStatus]
  exact ⟨h1, h2⟩

/-- `raise_for_status` does not raise below 400. -/
theorem raiseForStatus_false (s : Nat) (h : s < 400) :
    raiseForStatus s = false := by
  simp [raiseForStatus]
  omega

end DirectLine

namespace DirectLine

/-! ## Claim theorems -/

/-- C1 counterexample: a 200 fetch whose body is a JSON array, and a 200
fetch of an object payload whose only (matching) activity has a string
`value`, both make the extraction raise `AttributeError` out of
`get_response` — the claimed universal "no matching content yields
`None`, distinct from an error" fails: the result is a raised exception,
not a returned `None`. -/
theorem poll_activities_malformed_counterexample :
    (get_response "sec" "conv1" "tok" DL_CONFIG (.ok 200 "" (.arr []))).2
      = .raised "AttributeError: get"
    ∧ (get_response "sec" "conv1" "tok" DL_CONFIG (.ok 200 "" oopsPayload)).2
      = .raised "AttributeError: get"
    ∧ PyResult.isRet
        ((get_response "sec" "conv1" "tok" DL_CONFIG (.ok 200 "" oopsPayload)).2)
      = false :=
  ⟨rfl, rfl, rfl⟩

/-- C1 (amended): on a successful fetch `get_response` returns exactly
the extraction result; the loop scans the activities in server order —
an activity yielding truthy content stops the scan with that content,
one yielding none is skipped — and on well-shaped payloads the first
matching activity's markdown (`"hello"`) respectively `None` (a normal
return) comes back; but a malformed payload (non-object body, non-list
activities value, non-object activity, or a matching activity whose
nested value path hits a non-object) raises an uncaught
`AttributeError`/`TypeError` instead of returning `None`. -/
theorem poll_activities_amended :
    (∀ a rest v, activityMarkdown a = .ret (some v) →
      extractLoop (a :: rest) = .ret (some v))
    ∧ (∀ a rest, activityMarkdown a = .ret none →
      extractLoop (a :: rest) = extractLoop rest)
    ∧ extract_markdown_content helloPayload = .ret (some (.str "hello"))
    ∧ extract_markdown_content noMatchPayload = .ret none
    ∧ (∀ secret conversation_id token cfg t data,
      (get_response secret conversation_id token cfg (.ok 200 t data)).2
        = extract_markdown_content data) := by
  refine ⟨?_, ?_, rfl, rfl, ?_⟩
  · intro a rest v h
    simp [extractLoop, h]
  · intro a rest h
    simp [extractLoop, h]
  · intro secret conversation_id token cfg t data
    rfl

/-- Witness for C1 (amended): the scan stops at a leading `"hello"`
activity and skips a leading non-matching activity. -/
theorem poll_activities_amended_witness :
    extractLoop [helloActivity, plainMessageActivity] = .ret (some (.str "hello"))
    ∧ extractLoop [plainMessageActivity, helloActivity] = extractLoop [helloActivity] :=
  ⟨poll_activities_amended.1 helloActivity [plainMessageActivity] (.str "hello") rfl,
   poll_activities_amended.2.1 plainMessageActivity [helloActivity] rfl⟩

/-- C10: a matching activity whose `MarkdownContent` is present but empty
fails the walrus truthiness test: the loop continues past it (here to a
later activity carrying `"hello"`), and every value the extraction
returns, whenever it returns at all, is truthy — the empty string, being
falsy, is never returned. -/
theorem empty_markdown_skipped :
    extract_markdown_content emptyThenHelloPayload = .ret (some (.str "hello"))
    ∧ activityMarkdown emptyContentActivity = .ret none
    ∧ (∀ data : Json,
        (returnedContent (extract_markdown_content data)).all Json.truthy = true)
    ∧ Json.truthy (.str "") = false := by
  refine ⟨rfl, rfl, ?_, rfl⟩
  intro data
  cases data with
  | obj fs =>
    cases h : pyIter ((fs.lookup "activities").getD (.arr [])) with
    | raised e => simp [extract_markdown_content, h, returnedContent]
    | ret items => simpa [extract_markdown_content, h] using extractLoop_truthy items
  | null => rfl
  | bool b => rfl
  | num n => rfl
  | str s => rfl
  | arr xs => rfl

/-- C2: with an empty secret, an empty bot id, or both, constructing the
client raises `ValueError` and its request trace is empty — no network
call happens. -/
theorem init_missing_credentials (secret bot_id : String)
    (h : secret = "" ∨ bot_id = "") :
    DirectLineClient.init secret bot_id =
      (.raised "ValueError: Direct Line secret and bot ID are required", []) := by
  unfold DirectLineClient.init validate_credentials
  rw [if_pos h]

/-- Witness for C2 at all three missing-credential combinations. -/
theorem init_missing_credentials_witness :
    DirectLineClient.init "" "bot1" =
      (.raised "ValueError: Direct Line secret and bot ID are required", [])
    ∧ DirectLineClient.init "sec1" "" =
      (.raised "ValueError: Direct Line secret and bot ID are required", [])
    ∧ DirectLineClient.init "" "" =
      (.raised "ValueError: Direct Line secret and bot ID are required", []) :=
  ⟨init_missing_credentials "" "bot1" (Or.inl rfl),
   init_missing_credentials "sec1" "" (Or.inr rfl),
   init_missing_credentials "" "" (Or.inl rfl)⟩

/-- C4: a 200 response with body containing `token = "abc"` makes
`get_token` return `"abc"`; a 401 response (any body) makes it return
`None`; and in every case `get_token` issues exactly one request, so no
further network call follows the failure. -/
theorem get_token_200_abc_401_none :
    (∀ secret cfg t,
      (get_token secret cfg (.ok 200 t (.obj [("token", .str "abc")]))).2
        = .ret (some (.str "abc")))
    ∧ (∀ secret cfg t b, (get_token secret cfg (.ok 401 t b)).2 = .ret none)
    ∧ (∀ secret cfg r, (get_token secret cfg r).1.length = 1) := by
  refine ⟨?_, ?_, ?_⟩
  · intro secret cfg t
    rfl
  · intro secret cfg t b
    rfl
  · intro secret cfg r
    rfl

end DirectLine

namespace DirectLine

/-- C3 counterexample: a 300 response is not a 2xx response, yet
`send_message` returns `True` rather than its failure sentinel `False` —
`raise_for_status` only raises for statuses in [400, 600), so a 3xx
response is treated as success. -/
theorem send_message_non2xx_counterexample :
    (send_message "sec" "conv1" "hi" "tok" DL_CONFIG (.ok 300 "" (.obj []))).2
      = .ret true
    ∧ decide (200 ≤ 300 ∧ 300 < 300) = false :=
  ⟨rfl, rfl⟩

/-- C3 (amended): for every operation of the client, a transport
exception (network error or timeout) and a 4xx/5xx response — the
failures `requests` raises as `RequestException` — are caught and
converted to the operation's sentinel (`None` or `False`); 3xx statuses
are not treated as failures. -/
theorem transport_failures_absorbed :
    (∀ secret cfg e, (get_token secret cfg (.netErr e)).2 = .ret none)
    ∧ (∀ secret cfg s t b, 400 ≤ s → s < 600 →
        (get_token secret cfg (.ok s t b)).2 = .ret none)
    ∧ (∀ secret bot token cfg e,
        (start_conversation secret bot token cfg (.netErr e)).2 = .ret none)
    ∧ (∀ secret bot token cfg s t b, 400 ≤ s → s < 600 →
        (start_conversation secret bot token cfg (.ok s t b)).2 = .ret none)
    ∧ (∀ secret cid m token cfg e,
        (send_message secret cid m token cfg (.netErr e)).2 = .ret false)
    ∧ (∀ secret cid m token cfg s t b, 400 ≤ s → s < 600 →
        (send_message secret cid m token cfg (.ok s t b)).2 = .ret false)
    ∧ (∀ secret cid ut token cfg e,
        (send_user_token secret cid ut token cfg (.netErr e)).2 = .ret false)
    ∧ (∀ secret cid ut token cfg s t b, 400 ≤ s → s < 600 →
        (send_user_token secret cid ut token cfg (.ok s t b)).2 = .ret false)
    ∧ (∀ secret cid token cfg e,
        (get_response secret cid token cfg (.netErr e)).2 = .ret none)
    ∧ (∀ secret cid token cfg s t b, 400 ≤ s → s < 600 →
        (get_response secret cid token cfg (.ok s t b)).2 = .ret none) := by
  refine ⟨fun _ _ _ => rfl, ?_, fun _ _ _ _ _ => rfl, ?_, fun _ _ _ _ _ _ => rfl,
    ?_, fun _ _ _ _ _ _ => rfl, ?_, fun _ _ _ _ _ => rfl, ?_⟩
  · intro secret cfg s t b h1 h2
    simp [get_token, raiseForStatus_true s h1 h2]
  · intro secret bot token cfg s t b h1 h2
    simp [start_conversation, raiseForStatus_true s h1 h2]
  · intro secret cid m token cfg s t b h1 h2
    simp [send_message, raiseForStatus_true s h1 h2]
  · intro secret cid ut token cfg s t b h1 h2
    simp [send_user_token, raiseForStatus_true s h1 h2]
  · intro secret cid token cfg s t b h1 h2
    simp [get_response, raiseForStatus_true s h1 h2]

/-- Witness for C3 (amended) at concrete failures: a 500 on the token
call, a 404 on a message post, a connection error on the poll. -/
theorem transport_failures_absorbed_witness :
    (get_token "sec" DL_CONFIG (.ok 500 "oops" (.obj []))).2 = .ret none
    ∧ (send_message "sec" "conv1" "hi" "tok" DL_CONFIG (.ok 404 "" (.obj []))).2
        = .ret false
    ∧ (get_response "sec" "conv1" "tok" DL_CONFIG (.netErr "boom")).2 = .ret none :=
  ⟨transport_failures_absorbed.2.1 "sec" DL_CONFIG 500 "oops" (.obj [])
      (by decide) (by decide),
   transport_failures_absorbed.2.2.2.2.2.1 "sec" "conv1" "hi" "tok" DL_CONFIG
      404 "" (.obj []) (by decide) (by decide),
   transport_failures_absorbed.2.2.2.2.2.2.2.2.1 "sec" "conv1" "tok" DL_CONFIG "boom"⟩

/-- C6: every client operation issues exactly one outbound request per
invocation, and its entire behaviour (request and result) is unchanged
under any values of `retry_attempts` and `retry_delay` — the retry
fields are never consulted. -/
theorem retry_config_inert :
    ∀ cfg ra rd secret bot cid msg ut tok r,
      (get_token secret (setRetry cfg ra rd) r = get_token secret cfg r
        ∧ (get_token secret cfg r).1.length = 1)
      ∧ (start_conversation secret bot tok (setRetry cfg ra rd) r
          = start_conversation secret bot tok cfg r
        ∧ (start_conversation secret bot tok cfg r).1.length = 1)
      ∧ (send_message secret cid msg tok (setRetry cfg ra rd) r
          = send_message secret cid msg tok cfg r
        ∧ (send_message secret cid msg tok cfg r).1.length = 1)
      ∧ (send_user_token secret cid ut tok (setRetry cfg ra rd) r
          = send_user_token secret cid ut tok cfg r
        ∧ (send_user_token secret cid ut tok cfg r).1.length = 1)
      ∧ (get_response secret cid tok (setRetry cfg ra rd) r
          = get_response secret cid tok cfg r
        ∧ (get_response secret cid tok cfg r).1.length = 1) := by
  intro cfg ra rd secret bot cid msg ut tok r
  cases cfg
  exact ⟨⟨rfl, rfl⟩, ⟨rfl, rfl⟩, ⟨rfl, rfl⟩, ⟨rfl, rfl⟩, ⟨rfl, rfl⟩⟩

/-- C9: a 2xx response whose JSON object body has no `"token"` key makes
`get_token` raise an uncaught `KeyError` instead of returning the `None`
sentinel, while a `RequestException` (transport failure) is absorbed
into `None`. -/
theorem get_token_missing_key_raises (secret : String) (cfg : DirectLineConfig)
    (s : Nat) (t : String) (fs : List (String × Json))
    (h1 : 200 ≤ s) (h2 : s < 300) (h3 : fs.lookup "token" = none) :
    (get_token secret cfg (.ok s t (.obj fs))).2 = .raised "KeyError: token"
    ∧ (∀ e, (get_token secret cfg (.netErr e)).2 = .ret none) := by
  constructor
  · have hr : raiseForStatus s = false := raiseForStatus_false s (by omega)
    simp [get_token, hr, h3]
  · intro e
    rfl

/-- Witness for C9: status 200 with body `{"other": "x"}`. -/
theorem get_token_missing_key_raises_witness :
    (get_token "sec" DL_CONFIG (.ok 200 "ok" (.obj [("other", .str "x")]))).2
      = .raised "KeyError: token"
    ∧ (get_token "sec" DL_CONFIG (.netErr "boom")).2 = .ret none :=
  ⟨(get_token_missing_key_raises "sec" DL_CONFIG 200 "ok" [("other", .str "x")]
      (by decide) (by decide) rfl).1,
   (get_token_missing_key_raises "sec" DL_CONFIG 200 "ok" [("other", .str "x")]
      (by decide) (by decide) rfl).2 "boom"⟩

end DirectLine

namespace DirectLine

/-- C5 counterexample: `query_directline`'s first `requests.post` is not
wrapped in try/except, so a transport exception on it propagates to the
caller — the tool raises instead of returning a descriptive string. -/
theorem query_directline_raises_counterexample :
    query_directline "conv1" "hi" "tok" none (some "sec") (some "bot")
      (.netErr "ConnectionError") (.ok 200 "" (.obj [])) (.ok 200 "" (.obj []))
      = .raised "ConnectionError" :=
  rfl

/-- C5 (amended): `query_directline` returns a descriptive error string
when the initial post completes with a status other than 200; when both
posts complete with the first at 200 and the environment credentials are
present and non-empty, it returns whatever `get_response` produces,
which may be `None` rather than a string; and it raises — instead of
returning a string — when either post hits a transport exception, when
an environment credential is missing or empty at the in-function client
construction, or when a successfully fetched 200 body is malformed (the
extraction's `AttributeError` propagates). -/
theorem query_directline_amended :
    (∀ cid m tk ut es eb s1 t1 b1 r2 r3, s1 ≠ 200 →
      query_directline cid m tk ut es eb (.ok s1 t1 b1) r2 r3
        = .ret (some (.str ("Error: " ++ toString s1 ++ " - " ++ t1))))
    ∧ (∀ cid m tk ut sec bot t1 b1 s2 t2 b2 r3, sec ≠ "" → bot ≠ "" →
      query_directline cid m tk ut (some sec) (some bot)
          (.ok 200 t1 b1) (.ok s2 t2 b2) r3
        = (get_response sec cid tk DL_CONFIG r3).2)
    ∧ (∀ cid m tk ut es eb e r2 r3,
      query_directline cid m tk ut es eb (.netErr e) r2 r3 = .raised e)
    ∧ (∀ cid m tk ut es eb t1 b1 e r3,
      query_directline cid m tk ut es eb (.ok 200 t1 b1) (.netErr e) r3 = .raised e)
    ∧ (∀ cid m tk ut es eb t1 b1 s2 t2 b2 r3,
      (optFalsy es || optFalsy eb) = true →
      query_directline cid m tk ut es eb (.ok 200 t1 b1) (.ok s2 t2 b2) r3
        = .raised "ValueError: Direct Line secret and bot ID are required")
    ∧ (∀ cid m tk ut sec bot t1 b1 s2 t2 b2 t3,
      sec ≠ "" → bot ≠ "" →
      query_directline cid m tk ut (some sec) (some bot)
          (.ok 200 t1 b1) (.ok s2 t2 b2) (.ok 200 t3 (.arr []))
        = .raised "AttributeError: get") := by
  refine ⟨?_, ?_, fun _ _ _ _ _ _ _ _ _ => rfl, fun _ _ _ _ _ _ _ _ _ _ => rfl,
    ?_, ?_⟩
  · intro cid m tk ut es eb s1 t1 b1 r2 r3 h
    simp [query_directline, h]
  · intro cid m tk ut sec bot t1 b1 s2 t2 b2 r3 hsec hbot
    simp [query_directline, optFalsy, hsec, hbot]
  · intro cid m tk ut es eb t1 b1 s2 t2 b2 r3 h
    simp [query_directline, h]
  · intro cid m tk ut sec bot t1 b1 s2 t2 b2 t3 hsec hbot
    simp [query_directline, optFalsy, hsec, hbot, get_response, raiseForStatus,
      extract_markdown_content]

/-- Witness for C5 (amended): a 500 on the first post yields the error
string; a clean 200/200 run with present credentials returns exactly the
`get_response` result; a missing secret raises; a 200-polled array body
raises out of the extraction. -/
theorem query_directline_amended_witness :
    query_directline "conv1" "hi" "tok" none (some "sec") (some "bot")
        (.ok 500 "oops" (.obj [])) (.ok 200 "" (.obj [])) (.ok 200 "" (.obj []))
      = .ret (some (.str ("Error: " ++ toString 500 ++ " - " ++ "oops")))
    ∧ query_directline "conv1" "hi" "tok" none (some "sec") (some "bot")
        (.ok 200 "" (.obj [])) (.ok 204 "" (.obj [])) (.netErr "x")
      = (get_response "sec" "conv1" "tok" DL_CONFIG (.netErr "x")).2
    ∧ query_directline "conv1" "hi" "tok" none none (some "bot")
        (.ok 200 "" (.obj [])) (.ok 200 "" (.obj [])) (.ok 200 "" (.obj []))
      = .raised "ValueError: Direct Line secret and bot ID are required"
    ∧ query_directline "conv1" "hi" "tok" none (some "sec") (some "bot")
        (.ok 200 "" (.obj [])) (.ok 200 "" (.obj [])) (.ok 200 "" (.arr []))
      = .raised "AttributeError: get" :=
  ⟨query_directline_amended.1 "conv1" "hi" "tok" none (some "sec") (some "bot")
      500 "oops" (.obj []) (.ok 200 "" (.obj [])) (.ok 200 "" (.obj [])) (by decide),
   query_directline_amended.2.1 "conv1" "hi" "tok" none "sec" "bot"
      "" (.obj []) 204 "" (.obj []) (.netErr "x") (by decide) (by decide),
   query_directline_amended.2.2.2.2.1 "conv1" "hi" "tok" none none (some "bot")
      "" (.obj []) 200 "" (.obj []) (.ok 200 "" (.obj [])) rfl,
   query_directline_amended.2.2.2.2.2 "conv1" "hi" "tok" none "sec" "bot"
      "" (.obj []) 200 "" (.obj []) "" (by decide) (by decide)⟩

/-- C7 counterexample: token acquisition can succeed with the empty
string (`{"token": ""}` on a 200), and a subsequent call passing that
empty session token hits the `token or f"Bearer {secret}"` fallback, so
the Authorization header becomes the malformed doubled value
`"Bearer Bearer sec"`, not `"Bearer "` followed by the session token. -/
theorem doubled_bearer_counterexample :
    (get_token "sec" DL_CONFIG (.ok 200 "" (.obj [("token", .str "")]))).2
      = .ret (some (.str ""))
    ∧ (start_conversation "sec" "bot1" "" DL_CONFIG (.netErr "x")).1.map
        Request.authHeader = [some "Bearer Bearer sec"]
    ∧ ("Bearer Bearer sec" == "Bearer " ++ "") = false :=
  ⟨rfl, rfl, by decide⟩

/-- C7 (amended): provided the session token is non-empty, every call
after token acquisition sends `Authorization: Bearer <token>`, and the
token-generation call itself sends `Bearer <secret>` for a non-empty
secret (construction guarantees the secret is non-empty); an empty
token, however, falls back to the secret and produces a doubled
`Bearer Bearer <secret>` value. -/
theorem bearer_header_amended :
    ∀ secret bot cid msg ut tok cfg r, tok ≠ "" →
      ((start_conversation secret bot tok cfg r).1.map Request.authHeader
          = [some ("Bearer " ++ tok)])
      ∧ ((send_message secret cid msg tok cfg r).1.map Request.authHeader
          = [some ("Bearer " ++ tok)])
      ∧ ((send_user_token secret cid ut tok cfg r).1.map Request.authHeader
          = [some ("Bearer " ++ tok)])
      ∧ ((get_response secret cid tok cfg r).1.map Request.authHeader
          = [some ("Bearer " ++ tok)])
      ∧ (secret ≠ "" → (get_token secret cfg r).1.map Request.authHeader
          = [some ("Bearer " ++ secret)]) := by
  intro secret bot cid msg ut tok cfg r htok
  refine ⟨?_, ?_, ?_, ?_, ?_⟩
  · simp [start_conversation, make_headers, Request.authHeader, htok, List.lookup]
  · simp [send_message, make_headers, Request.authHeader, htok, List.lookup]
  · simp [send_user_token, make_headers, Request.authHeader, htok, List.lookup]
  · simp [get_response, make_headers, Request.authHeader, htok, List.lookup]
  · intro hsec
    simp [get_token, make_headers, Request.authHeader, hsec, List.lookup]

/-- Witness for C7 (amended) with session token `"tok1"` and secret
`"sec"`. -/
theorem bearer_header_amended_witness :
    (start_conversation "sec" "bot1" "tok1" DL_CONFIG (.netErr "x")).1.map
        Request.authHeader = [some ("Bearer " ++ "tok1")]
    ∧ (get_token "sec" DL_CONFIG (.netErr "x")).1.map Request.authHeader
        = [some ("Bearer " ++ "sec")] :=
  ⟨(bearer_header_amended "sec" "bot1" "conv1" "hi" "ut" "tok1" DL_CONFIG
      (.netErr "x") (by decide)).1,
   (bearer_header_amended "sec" "bot1" "conv1" "hi" "ut" "tok1" DL_CONFIG
      (.netErr "x") (by decide)).2.2.2.2 (by decide)⟩

/-- C8 counterexample: constructing a configuration with a different base
endpoint leaves `token_url` at its class-level default — it is not the
configured endpoint followed by `/tokens/generate`. -/
theorem token_url_not_derived_counterexample :
    (configWithEndpoint "https://example.com/api").token_url = defaultTokenUrl
    ∧ ((configWithEndpoint "https://example.com/api").token_url
        == "https://example.com/api" ++ "/tokens/generate") = false :=
  ⟨rfl, by decide⟩

/-- C8 (amended): `token_url` is the constant default base endpoint
followed by `/tokens/generate` (the dataclass f-string is evaluated once
against the default endpoint), so it equals the configured endpoint
followed by `/tokens/generate` only for the default configuration —
which is the one every client instance actually uses — while a
configuration built with any other endpoint keeps the default
`token_url`; the token-generation call posts to `token_url`. -/
theorem token_url_constant_default :
    (∀ e, (configWithEndpoint e).token_url = defaultTokenUrl)
    ∧ DL_CONFIG.token_url = DL_CONFIG.endpoint ++ "/tokens/generate"
    ∧ (∀ secret cfg r, (get_token secret cfg r).1.map Request.url = [cfg.token_url])
    ∧ (∀ secret cfg r, (get_token secret cfg r).1.map Request.method = ["POST"]) := by
  exact ⟨fun e => rfl, rfl, fun secret cfg r => rfl, fun secret cfg r => rfl⟩

end DirectLine
